import Mathlib

/-!
Shallow embedding of the ingestion-and-transform pipeline of the
nyc-yellow-taxi-dashboard repository (src/utils/preprocess.py), together
with theorems settling the claims about it.

The two functions embedded are `load_data_from_api` (paginated HTTP fetch
with batch accumulation) and `transform_for_visuals` (categorical
remapping plus a borough lookup join).  The HTTP layer and the pandas CSV
parser are abstracted into an environment (`FetchEnv`): each page request
yields one of the outcomes the Python code distinguishes (network
exception, non-200 status, empty body, parse error, or a parsed chunk of
rows).  A pandas cell is `na`, an integer, or a string, which is what the
`.map(dict).fillna(fallback)` idiom distinguishes.
-/

namespace NycTaxi

/-- A pandas cell as observed by `.map`/`.fillna`: missing (NaN), an
integer code, or a string. -/
inductive Cell where
  | na
  | int (i : Int)
  | str (s : String)
deriving DecidableEq, Repr

/-- One row of the trip table.  The six code columns are those read by
`transform_for_visuals`; the derived label columns are `none` until the
transform creates them (a raw table has no such columns); `rest` stands
for all remaining columns, which the transform never touches. -/
structure Row where
  vendorid : Cell
  ratecodeid : Cell
  store_and_fwd_flag : Cell
  payment_type : Cell
  pulocationid : Cell
  dolocationid : Cell
  vendor_name : Option Cell := none
  rate_name : Option Cell := none
  pulocation_borough : Option Cell := none
  dolocation_borough : Option Cell := none
  rest : List Cell := []
deriving DecidableEq, Repr

/-! The four fixed categorical maps (dict literals in the source). -/

/-- The `vendor_map` dict of `transform_for_visuals`. -/
def vendor_map (i : Int) : Option String :=
  if i = 1 then some "Creative Mobile Technologies (CMT)"
  else if i = 2 then some "Curb Mobility"
  else if i = 6 then some "Myle Technologies"
  else if i = 7 then some "Helix"
  else none

/-- The `rate_map` dict of `transform_for_visuals`. -/
def rate_map (i : Int) : Option String :=
  if i = 1 then some "Standard Rate"
  else if i = 2 then some "JFK Airport"
  else if i = 3 then some "Newark Airport"
  else if i = 4 then some "Nassau or Westchester County"
  else if i = 5 then some "Negotiated Fare"
  else if i = 6 then some "Group Ride"
  else if i = 99 then some "Private Hire"
  else none

/-- The `sfw_map` dict of `transform_for_visuals` (string keys). -/
def sfw_map (s : String) : Option String :=
  if s = "Y" then some "Store and forward"
  else if s = "N" then some "Not a store and forward trip"
  else none

/-- The `payment_map` dict of `transform_for_visuals`. -/
def payment_map (i : Int) : Option String :=
  if i = 1 then some "Credit Card"
  else if i = 2 then some "Cash"
  else if i = 3 then some "No Charge"
  else if i = 4 then some "Dispute"
  else if i = 5 then some "Unknown"
  else if i = 6 then some "Voided Trip"
  else none

/-- Semantics of `series.map(int_keyed_dict).fillna(fallback)`: an integer cell is
looked up (a miss becomes NaN, then the fallback); a NaN or string cell
never matches an integer key, so it also becomes the fallback. -/
def mapFillInt (m : Int → Option String) (fallback : String) : Cell → Cell
  | Cell.int i =>
    match m i with
    | some s => Cell.str s
    | none => Cell.str fallback
  | _ => Cell.str fallback

/-- Semantics of `series.map(str_keyed_dict).fillna(fallback)`: same, for string keys. -/
def mapFillStr (m : String → Option String) (fallback : String) : Cell → Cell
  | Cell.str s =>
    match m s with
    | some l => Cell.str l
    | none => Cell.str fallback
  | _ => Cell.str fallback

/-- The dict `borough_df.set_index("LocationID")["Borough"].to_dict()` for a
lookup table given as (LocationID, Borough) pairs: building the dict in
order makes the last occurrence of a key win, hence lookup on the
reversed list. -/
def borough_map (tbl : List (Int × String)) (i : Int) : Option String :=
  tbl.reverse.lookup i

/-- Exceptions `transform_for_visuals` can raise: the explicit
`ValueError("No data available to transform")` precondition failure, or
the I/O error from `pd.read_csv` on a missing/unreadable lookup file. -/
inductive Exn where
  | valueError (msg : String)
  | ioError
deriving DecidableEq, Repr

/-- The first four column assignments of `transform_for_visuals`:
`vendor_name` and `rate_name` are added, `store_and_fwd_flag` and
`payment_type` are overwritten in place. -/
def enrichCodes (r : Row) : Row :=
  { r with
    vendor_name := some (mapFillInt vendor_map "Other" r.vendorid)
    rate_name := some (mapFillInt rate_map "Other" r.ratecodeid)
    store_and_fwd_flag := mapFillStr sfw_map "Unknown" r.store_and_fwd_flag
    payment_type := mapFillInt payment_map "Unknown" r.payment_type }

/-- The borough join of `transform_for_visuals`: `pulocationid` and
`dolocationid` mapped through the location lookup, misses filled with
"Unknown". -/
def joinBoroughs (tbl : List (Int × String)) (r : Row) : Row :=
  { r with
    pulocation_borough := some (mapFillInt (borough_map tbl) "Unknown" r.pulocationid)
    dolocation_borough := some (mapFillInt (borough_map tbl) "Unknown" r.dolocationid) }

/-- The function `transform_for_visuals(df)`.  Here `lookupRes` is the outcome of
`pd.read_csv("data/locationid.csv")` on this call: `Except.error` when the
file is missing or unreadable (the read is unguarded, so that exception
propagates), `Except.ok tbl` when it parses to the lookup table.  A `None`
input raises the documented `ValueError` before anything else. -/
def transform_for_visuals (lookupRes : Except Unit (List (Int × String)))
    (df : Option (List Row)) : Except Exn (List Row) :=
  match df with
  | none => Except.error (Exn.valueError "No data available to transform")
  | some rows =>
    let step1 := rows.map enrichCodes
    match lookupRes with
    | Except.error _ => Except.error Exn.ioError
    | Except.ok tbl => Except.ok (step1.map (joinBoroughs tbl))

/-- Calling the transform and feeding its output back in (the
double-application the idempotence claim is about). -/
def transformTwice (lookupRes : Except Unit (List (Int × String)))
    (df : Option (List Row)) : Except Exn (List Row) :=
  match transform_for_visuals lookupRes df with
  | Except.ok out => transform_for_visuals lookupRes (some out)
  | Except.error exc => Except.error exc

/-! The paginated fetcher `load_data_from_api`. -/

/-- One page request as the fetcher issues it: the two dates interpolated
into the `BETWEEN` filter, and the `LIMIT`/`OFFSET` pair. -/
structure Query where
  start_date : String
  end_date : String
  limit : Nat
  offset : Nat
deriving DecidableEq, Repr

/-- The outcomes of one page request that the Python code distinguishes:
`requests.get` raising (network error); a non-200 `status_code`; a body
that is empty after `strip()`; `pd.read_csv` raising on the body; or a
parsed chunk of rows (possibly zero rows, e.g. a header-only CSV). -/
inductive PageOutcome (R : Type) where
  | netError
  | httpError (code : Nat)
  | emptyBody
  | parseError
  | rows (chunk : List R)

/-- The external world as `load_data_from_api` sees it: each page request
has an outcome, and `pd.to_datetime` on the two timestamp columns either
converts a row or raises (elementwise, so modelled per row). -/
structure FetchEnv (R : Type) where
  page : Query → PageOutcome R
  parse_datetimes : R → Except Unit R

/-- How one run of the fetch loop ended: an exception escaped the loop
body, a non-200 status made it `return None`, or it ran to completion /
`break` with the accumulated non-empty chunks. -/
inductive PagesResult (R : Type) where
  | exnRaised
  | aborted
  | done (chunks : List (List R))

/-- The fetch loop over a list of offsets.  Returns the trace of issued
page requests together with the result.  A non-200 status aborts (the
Python `return None`); an empty body or an empty parsed chunk is a
`break`, keeping earlier chunks; a network or parse error raises. -/
def runPages {R : Type} (env : FetchEnv R) (s e : String) (b : Nat) :
    List Nat → List Query × PagesResult R
  | [] => ([], PagesResult.done [])
  | off :: offs =>
    let q : Query := ⟨s, e, b, off⟩
    match env.page q with
    | PageOutcome.netError => ([q], PagesResult.exnRaised)
    | PageOutcome.httpError _ => ([q], PagesResult.aborted)
    | PageOutcome.emptyBody => ([q], PagesResult.done [])
    | PageOutcome.parseError => ([q], PagesResult.exnRaised)
    | PageOutcome.rows chunk =>
      if chunk.isEmpty then ([q], PagesResult.done [])
      else
        let res := runPages env s e b offs
        (q :: res.1,
          match res.2 with
          | PagesResult.done cs => PagesResult.done (chunk :: cs)
          | r => r)

/-- Python's `range(0, max_rows, batch_size)` for a positive step: the offsets
`0, b, 2b, ...` below `max_rows`, of which there are
`⌈max_rows / batch_size⌉`. -/
def rangeOffsets (max_rows batch_size : Nat) : List Nat :=
  (List.range ((max_rows + batch_size - 1) / batch_size)).map (fun k => k * batch_size)

/-- Elementwise fallible map (Python's column conversion raises at the
first bad element). -/
def mapME {α : Type} (f : α → Except Unit α) : List α → Except Unit (List α)
  | [] => Except.ok []
  | x :: xs =>
    match f x, mapME f xs with
    | Except.ok y, Except.ok ys => Except.ok (y :: ys)
    | Except.error u, _ => Except.error u
    | _, Except.error u => Except.error u

/-- The body of `load_data_from_api` as it stands inside the `try`:
`Except.error` is an exception reaching the `except` handler.  A zero
`batch_size` makes `range()` itself raise `ValueError`; otherwise the
loop runs, `if not all_data: return None`, and finally the concatenated
table has its two timestamp columns converted (which may raise). -/
def load_body {R : Type} (env : FetchEnv R) (s e : String)
    (max_rows batch_size : Nat) : Except Unit (Option (List R)) :=
  if batch_size = 0 then Except.error ()
  else
    match (runPages env s e batch_size (rangeOffsets max_rows batch_size)).2 with
    | PagesResult.exnRaised => Except.error ()
    | PagesResult.aborted => Except.ok none
    | PagesResult.done chunks =>
      if chunks.isEmpty then Except.ok none
      else
        match mapME env.parse_datetimes chunks.flatten with
        | Except.ok df => Except.ok (some df)
        | Except.error u => Except.error u

/-- The function `load_data_from_api(start_date, end_date, max_rows, batch_size)`:
the body wrapped in `try/except Exception: return None`, so the caller
sees an optional table. -/
def load_data_from_api {R : Type} (env : FetchEnv R) (s e : String)
    (max_rows batch_size : Nat) : Option (List R) :=
  match load_body env s e max_rows batch_size with
  | Except.ok r => r
  | Except.error _ => none

/-- The call semantics of `load_data_from_api` seen as a fallible
computation: the `try` block spans the whole body, and the handler turns
any exception into a normal `None` return. -/
def load_run {R : Type} (env : FetchEnv R) (s e : String)
    (max_rows batch_size : Nat) : Except Unit (Option (List R)) :=
  match load_body env s e max_rows batch_size with
  | Except.ok r => Except.ok r
  | Except.error _ => Except.ok none

/-- The page requests one call of `load_data_from_api` actually issues
(none at all when `range()` raises on a zero step). -/
def fetchTrace {R : Type} (env : FetchEnv R) (s e : String)
    (max_rows batch_size : Nat) : List Query :=
  if batch_size = 0 then []
  else (runPages env s e batch_size (rangeOffsets max_rows batch_size)).1

/-- Projects the payment label of the first row out of a transform result
(used to compare a single and a double application on a concrete table). -/
def headPayment (res : Except Exn (List Row)) : Option Cell :=
  match res with
  | Except.ok (r :: _) => some r.payment_type
  | _ => none

/-! Concrete inputs used by counterexamples and witnesses. -/

/-- A raw row with every code mapped: vendor 1, rate 1, flag "Y",
payment 1, both locations 1. -/
def rawC2 : Row :=
  { vendorid := Cell.int 1, ratecodeid := Cell.int 1,
    store_and_fwd_flag := Cell.str "Y", payment_type := Cell.int 1,
    pulocationid := Cell.int 1, dolocationid := Cell.int 1 }

/-- A raw row with every code unmapped: vendor 99, rate 50, flag "X",
payment 9, locations 999 and 777 (absent from an empty lookup table). -/
def rawB : Row :=
  { vendorid := Cell.int 99, ratecodeid := Cell.int 50,
    store_and_fwd_flag := Cell.str "X", payment_type := Cell.int 9,
    pulocationid := Cell.int 999, dolocationid := Cell.int 777 }

/-- The raw row of the C8 scenario. -/
def rawC8 : Row :=
  { vendorid := Cell.int 1, ratecodeid := Cell.int 2,
    store_and_fwd_flag := Cell.str "N", payment_type := Cell.int 3,
    pulocationid := Cell.int 132, dolocationid := Cell.int 999 }

/-- A one-entry location lookup table: 132 ↦ Queens. -/
def lkQueens : List (Int × String) := [(132, "Queens")]

/-- The enriched table obtained from `[rawC2]` with an empty lookup table. -/
def outA : List Row := [joinBoroughs [] (enrichCodes rawC2)]

/-- The enriched table obtained from `[rawB]` with an empty lookup table. -/
def outB : List Row := [joinBoroughs [] (enrichCodes rawB)]

/-- The enriched table obtained from `[rawC8]` with the `lkQueens` lookup. -/
def outC8 : List Row := [joinBoroughs lkQueens (enrichCodes rawC8)]

/-- An environment whose every page carries two rows (more than its
`LIMIT 2` would need for `max_rows = 1`). -/
def envC1 : FetchEnv Nat :=
  { page := fun _ => PageOutcome.rows [0, 0],
    parse_datetimes := fun r => Except.ok r }

/-- An environment returning per page as many rows as the `LIMIT` allows,
capped at one. -/
def envC1W : FetchEnv Nat :=
  { page := fun q => PageOutcome.rows (List.replicate (min 1 q.limit) 5),
    parse_datetimes := fun r => Except.ok r }

/-- An environment whose every page request comes back with an empty body. -/
def envC3 : FetchEnv Nat :=
  { page := fun _ => PageOutcome.emptyBody,
    parse_datetimes := fun r => Except.ok r }

/-- An environment whose every page request fails with HTTP 500. -/
def env500 : FetchEnv Nat :=
  { page := fun _ => PageOutcome.httpError 500,
    parse_datetimes := fun r => Except.ok r }

/-- An environment whose every page request raises a network exception. -/
def envNet : FetchEnv Nat :=
  { page := fun _ => PageOutcome.netError,
    parse_datetimes := fun r => Except.ok r }

/-! Helper lemmas about the transform. -/

theorem transform_ok (tbl : List (Int × String)) (rows : List Row) :
    transform_for_visuals (Except.ok tbl) (some rows) =
      Except.ok (rows.map (fun r => joinBoroughs tbl (enrichCodes r))) := by
  simp [transform_for_visuals, List.map_map, Function.comp]

theorem mapFillInt_isStr (m : Int → Option String) (fb : String) (c : Cell) :
    ∃ s, mapFillInt m fb c = Cell.str s := by
  cases c with
  | na => exact ⟨fb, rfl⟩
  | str s => exact ⟨fb, rfl⟩
  | int i =>
    cases h : m i with
    | none => exact ⟨fb, by simp [mapFillInt, h]⟩
    | some s => exact ⟨s, by simp [mapFillInt, h]⟩

theorem mapFillStr_isStr (m : String → Option String) (fb : String) (c : Cell) :
    ∃ s, mapFillStr m fb c = Cell.str s := by
  cases c with
  | na => exact ⟨fb, rfl⟩
  | int i => exact ⟨fb, rfl⟩
  | str s =>
    cases h : m s with
    | none => exact ⟨fb, by simp [mapFillStr, h]⟩
    | some l => exact ⟨l, by simp [mapFillStr, h]⟩

theorem mapFillInt_miss (m : Int → Option String) (fb : String) (i : Int)
    (hm : m i = none) : mapFillInt m fb (Cell.int i) = Cell.str fb := by
  simp [mapFillInt, hm]

theorem mapFillStr_miss (m : String → Option String) (fb : String) (s : String)
    (hm : m s = none) : mapFillStr m fb (Cell.str s) = Cell.str fb := by
  simp [mapFillStr, hm]

theorem mapFillInt_onStr (m : Int → Option String) (fb : String) (c : Cell)
    (h : ∃ s, c = Cell.str s) : mapFillInt m fb c = Cell.str fb := by
  obtain ⟨s, rfl⟩ := h
  rfl

theorem sfw_twice (c : Cell) :
    mapFillStr sfw_map "Unknown" (mapFillStr sfw_map "Unknown" c) =
      Cell.str "Unknown" := by
  cases c with
  | na => rfl
  | int i => rfl
  | str s =>
    by_cases h1 : s = "Y"
    · subst h1; rfl
    · by_cases h2 : s = "N"
      · subst h2; rfl
      · have : sfw_map s = none := by simp [sfw_map, h1, h2]
        rw [mapFillStr_miss _ _ _ this]
        rfl

theorem payment_twice (c : Cell) :
    mapFillInt payment_map "Unknown" (mapFillInt payment_map "Unknown" c) =
      Cell.str "Unknown" :=
  mapFillInt_onStr _ _ _ (mapFillInt_isStr _ _ c)

theorem transform_rows_pointwise (tbl : List (Int × String)) (rows out : List Row)
    (h : transform_for_visuals (Except.ok tbl) (some rows) = Except.ok out) :
    out.length = rows.length ∧
    ∀ i (ho : i < out.length) (hi : i < rows.length),
      out.get ⟨i, ho⟩ = joinBoroughs tbl (enrichCodes (rows.get ⟨i, hi⟩)) := by
  rw [transform_ok] at h
  have hout : out = rows.map (fun r => joinBoroughs tbl (enrichCodes r)) :=
    (Except.ok.inj h).symm
  subst hout
  refine ⟨List.length_map _ _, fun i ho hi => ?_⟩
  simp [List.getElem_map]

theorem enrich_join_twice (tbl : List (Int × String)) (r : Row) :
    joinBoroughs tbl (enrichCodes (joinBoroughs tbl (enrichCodes r))) =
      { joinBoroughs tbl (enrichCodes r) with
        store_and_fwd_flag := Cell.str "Unknown",
        payment_type := Cell.str "Unknown" } := by
  obtain ⟨v, rc, sf, pt, pu, dl, vn, rn, pb, db, rest⟩ := r
  simp only [enrichCodes, joinBoroughs]
  exact congrArg₂ (fun a b => Row.mk v rc a b pu dl
      (some (mapFillInt vendor_map "Other" v)) (some (mapFillInt rate_map "Other" rc))
      (some (mapFillInt (borough_map tbl) "Unknown" pu))
      (some (mapFillInt (borough_map tbl) "Unknown" dl)) rest)
    (sfw_twice sf) (payment_twice pt)

/-! Claim theorems about the transform. -/

/-- Claim C5: for every input table, `transform_for_visuals` outputs
exactly as many rows as it was given, in the same order — row `i` of the
output is computed from row `i` of the input alone, and the untouched
columns (`vendorid`, `ratecodeid`, `pulocationid`, `dolocationid` and all
remaining columns) carry over unchanged; the transform only adds or
overwrites columns. -/
theorem C5_transform_preserves_rows (tbl : List (Int × String)) (rows out : List Row)
    (h : transform_for_visuals (Except.ok tbl) (some rows) = Except.ok out) :
    out.length = rows.length ∧
    ∀ i (ho : i < out.length) (hi : i < rows.length),
      out.get ⟨i, ho⟩ = joinBoroughs tbl (enrichCodes (rows.get ⟨i, hi⟩)) ∧
      (out.get ⟨i, ho⟩).vendorid = (rows.get ⟨i, hi⟩).vendorid ∧
      (out.get ⟨i, ho⟩).ratecodeid = (rows.get ⟨i, hi⟩).ratecodeid ∧
      (out.get ⟨i, ho⟩).pulocationid = (rows.get ⟨i, hi⟩).pulocationid ∧
      (out.get ⟨i, ho⟩).dolocationid = (rows.get ⟨i, hi⟩).dolocationid ∧
      (out.get ⟨i, ho⟩).rest = (rows.get ⟨i, hi⟩).rest := by
  obtain ⟨hlen, hpt⟩ := transform_rows_pointwise tbl rows out h
  refine ⟨hlen, fun i ho hi => ?_⟩
  have hg := hpt i ho hi
  refine ⟨hg, ?_, ?_, ?_, ?_, ?_⟩ <;>
    rw [hg] <;> simp [joinBoroughs, enrichCodes]

/-- Witness for C5 at a concrete table: one raw row with an empty lookup
table transforms to one enriched row. -/
theorem C5_transform_preserves_rows_witness : outA.length = [rawC2].length :=
  (C5_transform_preserves_rows [] [rawC2] outA rfl).1

/-- Claim C6: every code-to-label mapping of the transform is total — in
every output row the six derived labels are plain strings (never missing),
and a code with no defined mapping resolves to the fallback: "Other" for
vendor and rate, "Unknown" for payment, flag, and the two boroughs. -/
theorem C6_labels_total (tbl : List (Int × String)) (rows out : List Row)
    (h : transform_for_visuals (Except.ok tbl) (some rows) = Except.ok out)
    (i : Nat) (ho : i < out.length) (hi : i < rows.length) :
    (∃ s, (out.get ⟨i, ho⟩).vendor_name = some (Cell.str s)) ∧
    (∃ s, (out.get ⟨i, ho⟩).rate_name = some (Cell.str s)) ∧
    (∃ s, (out.get ⟨i, ho⟩).store_and_fwd_flag = Cell.str s) ∧
    (∃ s, (out.get ⟨i, ho⟩).payment_type = Cell.str s) ∧
    (∃ s, (out.get ⟨i, ho⟩).pulocation_borough = some (Cell.str s)) ∧
    (∃ s, (out.get ⟨i, ho⟩).dolocation_borough = some (Cell.str s)) ∧
    (∀ c, (rows.get ⟨i, hi⟩).vendorid = Cell.int c → vendor_map c = none →
      (out.get ⟨i, ho⟩).vendor_name = some (Cell.str "Other")) ∧
    (∀ c, (rows.get ⟨i, hi⟩).ratecodeid = Cell.int c → rate_map c = none →
      (out.get ⟨i, ho⟩).rate_name = some (Cell.str "Other")) ∧
    (∀ c, (rows.get ⟨i, hi⟩).payment_type = Cell.int c → payment_map c = none →
      (out.get ⟨i, ho⟩).payment_type = Cell.str "Unknown") ∧
    (∀ s, (rows.get ⟨i, hi⟩).store_and_fwd_flag = Cell.str s → sfw_map s = none →
      (out.get ⟨i, ho⟩).store_and_fwd_flag = Cell.str "Unknown") ∧
    (∀ c, (rows.get ⟨i, hi⟩).pulocationid = Cell.int c → borough_map tbl c = none →
      (out.get ⟨i, ho⟩).pulocation_borough = some (Cell.str "Unknown")) ∧
    (∀ c, (rows.get ⟨i, hi⟩).dolocationid = Cell.int c → borough_map tbl c = none →
      (out.get ⟨i, ho⟩).dolocation_borough = some (Cell.str "Unknown")) := by
  have hg := (transform_rows_pointwise tbl rows out h).2 i ho hi
  rw [hg]
  set inp := rows.get ⟨i, hi⟩ with hinp
  refine ⟨?_, ?_, ?_, ?_, ?_, ?_, ?_, ?_, ?_, ?_, ?_, ?_⟩
  · simpa [joinBoroughs, enrichCodes] using mapFillInt_isStr vendor_map "Other" inp.vendorid
  · simpa [joinBoroughs, enrichCodes] using mapFillInt_isStr rate_map "Other" inp.ratecodeid
  · simpa [joinBoroughs, enrichCodes] using
      mapFillStr_isStr sfw_map "Unknown" inp.store_and_fwd_flag
  · simpa [joinBoroughs, enrichCodes] using
      mapFillInt_isStr payment_map "Unknown" inp.payment_type
  · simpa [joinBoroughs, enrichCodes] using
      mapFillInt_isStr (borough_map tbl) "Unknown" inp.pulocationid
  · simpa [joinBoroughs, enrichCodes] using
      mapFillInt_isStr (borough_map tbl) "Unknown" inp.dolocationid
  · intro c hc hm
    simp [joinBoroughs, enrichCodes, hc, mapFillInt_miss _ _ _ hm]
  · intro c hc hm
    simp [joinBoroughs, enrichCodes, hc, mapFillInt_miss _ _ _ hm]
  · intro c hc hm
    simp [joinBoroughs, enrichCodes, hc, mapFillInt_miss _ _ _ hm]
  · intro s hc hm
    simp [joinBoroughs, enrichCodes, hc, mapFillStr_miss _ _ _ hm]
  · intro c hc hm
    simp [joinBoroughs, enrichCodes, hc, mapFillInt_miss _ _ _ hm]
  · intro c hc hm
    simp [joinBoroughs, enrichCodes, hc, mapFillInt_miss _ _ _ hm]

/-- Witness for C6: with an empty lookup table and a row whose vendor
code 99 is unmapped, the derived vendor label is the fallback "Other". -/
theorem C6_labels_total_witness :
    (outB.get ⟨0, by decide⟩).vendor_name = some (Cell.str "Other") :=
  (C6_labels_total [] [rawB] outB rfl 0 (by decide) (by decide)).2.2.2.2.2.2.1
    99 rfl (by decide)

/-- Claim C7: a `None` input raises the documented
`ValueError("No data available to transform")` before anything else,
while an empty-but-valid table is accepted and yields an empty output. -/
theorem C7_none_rejected_empty_ok (lookupRes : Except Unit (List (Int × String)))
    (tbl : List (Int × String)) :
    transform_for_visuals lookupRes none =
      Except.error (Exn.valueError "No data available to transform") ∧
    transform_for_visuals (Except.ok tbl) (some []) = Except.ok [] :=
  ⟨rfl, rfl⟩

/-- Claim C8: the scenario row (vendor 1, rate 2, payment 3, pickup 132,
dropoff 999) enriches to CMT / JFK Airport / No Charge, the borough the
lookup lists for 132, and "Unknown" for the absent id 999. -/
theorem C8_scenario (tbl : List (Int × String)) (bq : String) (r : Row) (out : List Row)
    (h132 : borough_map tbl 132 = some bq) (h999 : borough_map tbl 999 = none)
    (hv : r.vendorid = Cell.int 1) (hrc : r.ratecodeid = Cell.int 2)
    (hp : r.payment_type = Cell.int 3) (hpu : r.pulocationid = Cell.int 132)
    (hdo : r.dolocationid = Cell.int 999)
    (h : transform_for_visuals (Except.ok tbl) (some [r]) = Except.ok out) :
    out.map Row.vendor_name = [some (Cell.str "Creative Mobile Technologies (CMT)")] ∧
    out.map Row.rate_name = [some (Cell.str "JFK Airport")] ∧
    out.map Row.payment_type = [Cell.str "No Charge"] ∧
    out.map Row.pulocation_borough = [some (Cell.str bq)] ∧
    out.map Row.dolocation_borough = [some (Cell.str "Unknown")] := by
  rw [transform_ok] at h
  have hout : out = [joinBoroughs tbl (enrichCodes r)] := (Except.ok.inj h).symm
  subst hout
  refine ⟨?_, ?_, ?_, ?_, ?_⟩ <;>
    simp [joinBoroughs, enrichCodes, hv, hrc, hp, hpu, hdo, mapFillInt,
      h132, h999, vendor_map, rate_map, payment_map]

/-- Witness for C8 with the lookup table `[(132, "Queens")]`. -/
theorem C8_scenario_witness :
    outC8.map Row.pulocation_borough = [some (Cell.str "Queens")] ∧
    outC8.map Row.dolocation_borough = [some (Cell.str "Unknown")] := by
  have h := C8_scenario lkQueens "Queens" rawC8 outC8 (by decide) (by decide)
    rfl rfl rfl rfl rfl rfl
  exact ⟨h.2.2.2.1, h.2.2.2.2⟩

/-- Claim C10: the borough lookup file is read unguarded on every call —
when that read fails the transform raises an uncaught exception, whereas
with a readable lookup (whatever its entries) the transform never hard
fails. -/
theorem C10_missing_lookup_file_raises (rows : List Row) (tbl : List (Int × String)) :
    transform_for_visuals (Except.error ()) (some rows) = Except.error Exn.ioError ∧
    ∃ out, transform_for_visuals (Except.ok tbl) (some rows) = Except.ok out :=
  ⟨rfl, _, rfl⟩

/-- Counterexample to claim C2: the transform is not idempotent.  On the
row `rawC2` (payment code 1), a single application labels the payment
"Credit Card", but re-transforming the enriched table maps the label
string through the integer-keyed payment dict, misses, and collapses it
to "Unknown". -/
theorem C2_cex :
    headPayment (transform_for_visuals (Except.ok []) (some [rawC2])) =
      some (Cell.str "Credit Card") ∧
    headPayment (transformTwice (Except.ok []) (some [rawC2])) =
      some (Cell.str "Unknown") ∧
    Cell.str "Credit Card" ≠ Cell.str "Unknown" :=
  ⟨rfl, rfl, by decide⟩

/-- Claim C2 as amended: one application of the transform is
deterministic, and a second application reproduces the first output
except on the two overwritten columns — `store_and_fwd_flag` and
`payment_type` collapse to "Unknown" on every row, since the label
strings written by the first pass are not keys of their maps. -/
theorem C2_amended_not_idempotent (tbl : List (Int × String)) (rows out : List Row)
    (h : transform_for_visuals (Except.ok tbl) (some rows) = Except.ok out) :
    transform_for_visuals (Except.ok tbl) (some out) =
      Except.ok (out.map (fun r =>
        { r with store_and_fwd_flag := Cell.str "Unknown",
                 payment_type := Cell.str "Unknown" })) := by
  rw [transform_ok] at h
  have hout : out = rows.map (fun r => joinBoroughs tbl (enrichCodes r)) :=
    (Except.ok.inj h).symm
  subst hout
  rw [transform_ok, List.map_map, List.map_map]
  congr 1
  apply List.map_congr_left
  intro r _
  simp only [Function.comp_apply]
  exact enrich_join_twice tbl r

/-- Witness for the amended C2 at the concrete enriched table `outA`. -/
theorem C2_amended_not_idempotent_witness :
    transform_for_visuals (Except.ok []) (some outA) =
      Except.ok (outA.map (fun r =>
        { r with store_and_fwd_flag := Cell.str "Unknown",
                 payment_type := Cell.str "Unknown" })) :=
  C2_amended_not_idempotent [] [rawC2] outA rfl

/-! Helper lemmas about the fetcher. -/

theorem mapME_length {α : Type} (f : α → Except Unit α) :
    ∀ xs ys, mapME f xs = Except.ok ys → ys.length = xs.length := by
  intro xs
  induction xs with
  | nil =>
    intro ys h
    simp only [mapME] at h
    rw [← Except.ok.inj h]
  | cons x xs ih =>
    intro ys h
    simp only [mapME] at h
    cases hf : f x <;> rw [hf] at h
    · exact absurd h (by simp)
    · cases hm : mapME f xs <;> rw [hm] at h
      · exact absurd h (by simp)
      · rw [← Except.ok.inj h]
        simp [ih _ hm]

theorem flatten_length_le {α : Type} (b : Nat) :
    ∀ l : List (List α), (∀ c ∈ l, c.length ≤ b) → l.flatten.length ≤ l.length * b := by
  intro l
  induction l with
  | nil => simp
  | cons c cs ih =>
    intro h
    simp only [List.flatten_cons, List.length_append, List.length_cons]
    have h1 : c.length ≤ b := h c (List.mem_cons_self c cs)
    have h2 : cs.flatten.length ≤ cs.length * b :=
      ih (fun x hx => h x (List.mem_cons_of_mem c hx))
    calc c.length + cs.flatten.length ≤ b + cs.length * b := Nat.add_le_add h1 h2
      _ = (cs.length + 1) * b := by ring

theorem runPages_done_bound {R : Type} (env : FetchEnv R) (s e : String) (b : Nat)
    (hapi : ∀ q ch, env.page q = PageOutcome.rows ch → ch.length ≤ q.limit) :
    ∀ offs chunks, (runPages env s e b offs).2 = PagesResult.done chunks →
      chunks.length ≤ offs.length ∧ ∀ c ∈ chunks, c.length ≤ b := by
  intro offs
  induction offs with
  | nil =>
    intro chunks h
    simp only [runPages] at h
    rw [← PagesResult.done.inj h]
    simp
  | cons off offs ih =>
    intro chunks h
    simp only [runPages] at h
    cases hp : env.page ⟨s, e, b, off⟩ <;> rw [hp] at h <;> simp only at h
    · exact absurd h (by simp)
    · exact absurd h (by simp)
    · rw [← PagesResult.done.inj h]
      simp
    · exact absurd h (by simp)
    · rename_i chunk
      by_cases hc : chunk.isEmpty
      · rw [if_pos hc] at h
        rw [← PagesResult.done.inj h]
        simp
      · rw [if_neg hc] at h
        simp only at h
        cases hr : (runPages env s e b offs).2 <;> rw [hr] at h <;> simp only at h
        · exact absurd h (by simp)
        · exact absurd h (by simp)
        · rename_i cs
          rw [← PagesResult.done.inj h]
          obtain ⟨hlen, hall⟩ := ih cs hr
          constructor
          · simpa using Nat.succ_le_succ hlen
          · intro c hcmem
            rcases List.mem_cons.mp hcmem with hceq | hcs
            · subst hceq
              exact hapi ⟨s, e, b, off⟩ c hp
            · exact hall c hcs

theorem runPages_trace_cons {R : Type} (env : FetchEnv R) (s e : String)
    (b off : Nat) (offs : List Nat) :
    ∃ t, (runPages env s e b (off :: offs)).1 =
      ({ start_date := s, end_date := e, limit := b, offset := off } : Query) :: t := by
  simp only [runPages]
  cases env.page ⟨s, e, b, off⟩ <;> simp only
  · exact ⟨[], rfl⟩
  · exact ⟨[], rfl⟩
  · exact ⟨[], rfl⟩
  · exact ⟨[], rfl⟩
  · rename_i chunk
    by_cases hc : chunk.isEmpty
    · rw [if_pos hc]; exact ⟨[], rfl⟩
    · rw [if_neg hc]; exact ⟨_, rfl⟩

theorem runPages_httpError_aborts {R : Type} (env : FetchEnv R) (s e : String) (b : Nat) :
    ∀ offs q, q ∈ (runPages env s e b offs).1 →
      (∃ c, env.page q = PageOutcome.httpError c) →
      (runPages env s e b offs).2 = PagesResult.aborted := by
  intro offs
  induction offs with
  | nil =>
    intro q hq
    simp [runPages] at hq
  | cons off offs ih =>
    intro q hq hc
    obtain ⟨c, hc⟩ := hc
    simp only [runPages] at hq ⊢
    cases hp : env.page ⟨s, e, b, off⟩ <;> rw [hp] at hq <;> simp only at hq ⊢
    · rw [List.mem_singleton] at hq
      subst hq
      rw [hp] at hc
      exact absurd hc (by simp)
    · rw [List.mem_singleton] at hq
      subst hq
      rw [hp] at hc
      exact absurd hc (by simp)
    · rw [List.mem_singleton] at hq
      subst hq
      rw [hp] at hc
      exact absurd hc (by simp)
    · rename_i chunk
      by_cases hck : chunk.isEmpty
      · rw [if_pos hck] at hq ⊢
        rw [List.mem_singleton] at hq
        subst hq
        rw [hp] at hc
        exact absurd hc (by simp)
      · rw [if_neg hck] at hq ⊢
        simp only at hq ⊢
        rcases List.mem_cons.mp hq with hqe | hqt
        · subst hqe
          rw [hp] at hc
          exact absurd hc (by simp)
        · rw [ih q hqt ⟨c, hc⟩]

theorem rangeOffsets_zero (b : Nat) (hb : b ≠ 0) : rangeOffsets 0 b = [] := by
  have h0 : (0 + b - 1) / b = 0 := Nat.div_eq_of_lt (by omega)
  unfold rangeOffsets
  rw [h0]
  rfl

theorem rangeOffsets_cons (m b : Nat) (hm : 0 < m) (hb : 0 < b) :
    ∃ t, rangeOffsets m b = 0 :: t := by
  have hlen : 0 < (m + b - 1) / b := Nat.div_pos (by omega) hb
  obtain ⟨k, hk⟩ : ∃ k, (m + b - 1) / b = k + 1 :=
    ⟨(m + b - 1) / b - 1, by omega⟩
  unfold rangeOffsets
  rw [hk, List.range_succ_eq_map]
  exact ⟨(List.range k).map (fun j => Nat.succ j * b), by simp [List.map_map]⟩

/-! Claim theorems about the fetcher. -/

/-- Claim C9: `load_data_from_api` never propagates an exception — its
whole body sits in a `try` whose handler returns `None`, so the call
semantics always terminates normally with the optional table, and any
exception inside the body becomes the `None` result. -/
theorem C9_no_exception_escapes {R : Type} (env : FetchEnv R) (s e : String)
    (m b : Nat) :
    load_run env s e m b = Except.ok (load_data_from_api env s e m b) ∧
    (∀ u, load_body env s e m b = Except.error u →
      load_data_from_api env s e m b = none) := by
  constructor
  · unfold load_run load_data_from_api
    cases h : load_body env s e m b <;> simp
  · intro u hu
    unfold load_data_from_api
    rw [hu]

/-- Witness for C9: with every page raising a network exception, the
body errors and the call still returns `None`. -/
theorem C9_no_exception_escapes_witness :
    load_data_from_api envNet "2023-01-01" "2023-01-31" 1 1 = none :=
  (C9_no_exception_escapes envNet "2023-01-01" "2023-01-31" 1 1).2 () rfl

/-- Counterexample to claim C1: the row budget does not bound the result
when `max_rows` is not a multiple of `batch_size`.  With `max_rows = 1`
and `batch_size = 2` the single page still requests `LIMIT 2`, and an API
answering with two rows makes the call return a two-row table. -/
theorem C1_cex :
    load_data_from_api envC1 "2023-01-01" "2023-01-31" 1 2 = some [0, 0] ∧
    ¬ ([0, 0].length ≤ 1) :=
  ⟨rfl, by decide⟩

/-- Claim C1 as amended: assuming each page honours its `LIMIT`, a
successful fetch returns at most `⌈max_rows / batch_size⌉ * batch_size`
rows — the budget rounds up to whole pages, and only equals `max_rows`
when `batch_size` divides it. -/
theorem C1_amended_row_bound {R : Type} (env : FetchEnv R) (s e : String)
    (m b : Nat) (df : List R)
    (hapi : ∀ q ch, env.page q = PageOutcome.rows ch → ch.length ≤ q.limit)
    (h : load_data_from_api env s e m b = some df) :
    df.length ≤ ((m + b - 1) / b) * b := by
  unfold load_data_from_api load_body at h
  by_cases hb : b = 0
  · rw [if_pos hb] at h
    exact absurd h (by simp)
  · rw [if_neg hb] at h
    cases hr : (runPages env s e b (rangeOffsets m b)).2 <;> rw [hr] at h <;>
      simp only at h
    · exact absurd h (by simp)
    · exact absurd h (by simp)
    · rename_i chunks
      by_cases hc : chunks.isEmpty
      · rw [if_pos hc] at h
        exact absurd h (by simp)
      · rw [if_neg hc] at h
        cases hm2 : mapME env.parse_datetimes chunks.flatten <;> rw [hm2] at h <;>
          simp only at h
        · exact absurd h (by simp)
        · rename_i df2
          have hdf : df = df2 := (Option.some.inj h).symm
          subst hdf
          obtain ⟨hlen, hall⟩ := runPages_done_bound env s e b hapi _ chunks hr
          have h1 : chunks.flatten.length ≤ chunks.length * b :=
            flatten_length_le b chunks hall
          have h2 : chunks.length * b ≤ ((m + b - 1) / b) * b := by
            apply Nat.mul_le_mul_right
            simpa [rangeOffsets] using hlen
          rw [mapME_length _ _ _ hm2]
          exact le_trans h1 h2

/-- Witness for the amended C1: an API answering each page with one row
fills the budget `max_rows = 2`, `batch_size = 1` exactly, within the
rounded bound. -/
theorem C1_amended_row_bound_witness :
    load_data_from_api envC1W "2023-01-01" "2023-01-31" 2 1 = some [5, 5] ∧
    [5, 5].length ≤ ((2 + 1 - 1) / 1) * 1 :=
  ⟨rfl, C1_amended_row_bound envC1W "2023-01-01" "2023-01-31" 2 1 [5, 5]
    (fun q ch hch => by
      have hc : ch = List.replicate (min 1 q.limit) 5 :=
        (PageOutcome.rows.inj hch).symm
      rw [hc, List.length_replicate]
      exact min_le_right 1 q.limit)
    rfl⟩

/-- Counterexample to claim C3: `load_data_from_api` performs no date
validation.  With `start_date = "2023-02-01"` after
`end_date = "2023-01-01"`, the first page request is still issued — the
trace of issued requests is nonempty. -/
theorem C3_cex :
    ("2023-01-01" : String) < "2023-02-01" ∧
    fetchTrace envC3 "2023-02-01" "2023-01-01" 10 5 =
      [{ start_date := "2023-02-01", end_date := "2023-01-01", limit := 5, offset := 0 }] :=
  ⟨by
    rw [String.lt_iff_toList_lt]
    decide, rfl⟩

/-- Claim C3 as amended: the fetcher rejects nothing — for every date
pair (whatever their order) with a positive row budget and batch size,
the first page request at offset 0 is issued, carrying the dates
verbatim. -/
theorem C3_amended_no_validation {R : Type} (env : FetchEnv R) (s e : String)
    (m b : Nat) (hm : 0 < m) (hb : 0 < b) :
    (fetchTrace env s e m b).head? =
      some { start_date := s, end_date := e, limit := b, offset := 0 } := by
  unfold fetchTrace
  rw [if_neg (Nat.pos_iff_ne_zero.mp hb)]
  obtain ⟨t, ht⟩ := rangeOffsets_cons m b hm hb
  rw [ht]
  obtain ⟨tr, htr⟩ := runPages_trace_cons env s e b 0 t
  rw [htr]
  rfl

/-- Witness for the amended C3 at concrete dates given in reverse order. -/
theorem C3_amended_no_validation_witness :
    (fetchTrace envC3 "2023-02-01" "2023-01-01" 10 5).head? =
      some { start_date := "2023-02-01", end_date := "2023-01-01", limit := 5, offset := 0 } :=
  C3_amended_no_validation envC3 "2023-02-01" "2023-01-01" 10 5 (by decide) (by decide)

/-- Claim C4: every failure or empty condition of the fetch collapses to
the `None` signal — a zero row budget returns `None`; any issued page
coming back with a non-success status aborts the whole fetch to `None`
(earlier pages discarded, no partial result); an empty first page yields
`None` rather than raising. -/
theorem C4_failures_collapse_to_none {R : Type} (env : FetchEnv R) (s e : String)
    (m b : Nat) :
    load_data_from_api env s e 0 b = none ∧
    ((∃ q ∈ fetchTrace env s e m b, ∃ c, env.page q = PageOutcome.httpError c) →
      load_data_from_api env s e m b = none) ∧
    (env.page { start_date := s, end_date := e, limit := b, offset := 0 } =
        PageOutcome.emptyBody →
      load_data_from_api env s e m b = none) := by
  refine ⟨?_, ?_, ?_⟩
  · unfold load_data_from_api load_body
    by_cases hb : b = 0
    · rw [if_pos hb]
    · rw [if_neg hb, rangeOffsets_zero b hb]
      simp [runPages]
  · rintro ⟨q, hq, c, hc⟩
    unfold fetchTrace at hq
    by_cases hb : b = 0
    · rw [if_pos hb] at hq
      exact absurd hq (by simp)
    · rw [if_neg hb] at hq
      have habort := runPages_httpError_aborts env s e b _ q hq ⟨c, hc⟩
      unfold load_data_from_api load_body
      rw [if_neg hb, habort]
  · intro hp
    unfold load_data_from_api load_body
    by_cases hb : b = 0
    · rw [if_pos hb]
    · rw [if_neg hb]
      by_cases hm : m = 0
      · rw [hm, rangeOffsets_zero b hb]
        simp [runPages]
      · obtain ⟨t, ht⟩ := rangeOffsets_cons m b (Nat.pos_of_ne_zero hm)
          (Nat.pos_of_ne_zero hb)
        rw [ht]
        simp only [runPages]
        rw [hp]
        rfl

/-- Witness for C4: an all-500 API and an empty-body API both make the
fetch return `None`. -/
theorem C4_failures_collapse_to_none_witness :
    load_data_from_api env500 "2023-01-01" "2023-01-31" 5 2 = none ∧
    load_data_from_api envC3 "2023-01-01" "2023-01-31" 5 2 = none :=
  ⟨(C4_failures_collapse_to_none env500 "2023-01-01" "2023-01-31" 5 2).2.1
      ⟨{ start_date := "2023-01-01", end_date := "2023-01-31", limit := 2, offset := 0 },
        by decide, 500, rfl⟩,
    (C4_failures_collapse_to_none envC3 "2023-01-01" "2023-01-31" 5 2).2.2 rfl⟩

end NycTaxi
